import Mathlib

/-!
Verification of the EdAccelerator 4-phase session core.

This file gives a shallow embedding, in Lean, of the session phase state
machine and orchestration protocol of the backend:

* `backend/state/session_state.py` (`Phase`, `Message`, `EvaluationPlan`,
  `QuizResult`, `SessionState`, `SessionStore`),
* `backend/orchestrator.py` (`SessionOrchestrator` and its phase handlers,
  `get_orchestrator` / `create_orchestrator`),
* `backend/evaluator/orchestrator.py` (`EvaluatorOrchestrator`),
* `backend/teacher/agent.py` (`TeacherAgent`),
* `backend/quiz/generator.py` (`QuizGenerator` / `Quiz`).

Calls to the external reasoning service (OpenAI) are modelled as oracle
inputs: every handler that performs an LLM round-trip takes the parsed
structured response of that call as an extra argument.  The static
question bank (`questions_cache.json`) is likewise an input.  Python
exceptions are modelled with `Except String`; mutations performed before
an exception is raised are visible in the returned state, mirroring the
in-place mutation of the Python objects.  Best-effort persistence
(`_persist_session`) swallows every failure and has no effect on session
state, so it is modelled as a no-op.
-/

namespace EdAccelerator

/-! ## Data model (`backend/state/session_state.py`) -/

/-- Source `Phase(str, Enum)`: the four sequential stages of a session. -/
inductive Phase where
  | evaluator
  | teacher
  | quiz
  | review
deriving DecidableEq, Repr

/-- Source `Phase.value`: the string value of each enum member. -/
def Phase.value : Phase → String
  | .evaluator => "evaluator"
  | .teacher => "teacher"
  | .quiz => "quiz"
  | .review => "review"

/-- Source `SessionOrchestrator.PHASE_ORDER`: the transition order of phases. -/
def PHASE_ORDER : List Phase := [.evaluator, .teacher, .quiz, .review]

/-- Source `PHASE_ORDER.index(p)`: position of a phase in `PHASE_ORDER`. -/
def phaseIdx : Phase → Nat
  | .evaluator => 0
  | .teacher => 1
  | .quiz => 2
  | .review => 3

theorem phaseIdx_le_three (p : Phase) : phaseIdx p ≤ 3 := by
  cases p <;> simp [phaseIdx]

theorem phaseIdx_eq_indexOf (p : Phase) :
    phaseIdx p = PHASE_ORDER.indexOf p := by
  cases p <;> rfl

/-- Source `Message`: a single message in a conversation (timestamps omitted;
they are wall-clock metadata never read by the core logic). -/
structure Message where
  role : String
  content : String
deriving DecidableEq, Repr

/-- Source `EvaluationPlan`: the evaluation result (`student_level` is declared
`Literal["low", "medium", "high"]` in pydantic; the validation is enforced
at construction time in `SessionState.set_plan` below). -/
structure EvaluationPlan where
  student_level : String
  teaching_focus : String
deriving DecidableEq, Repr

/-- Source `QuizResult`: results from the quiz phase. -/
structure QuizResult where
  total_questions : Nat
  correct_answers : Nat
  score_percentage : ℚ
  time_taken_seconds : Nat
deriving DecidableEq, Repr

/-- Source `SessionState`: complete state for a learning session
(`created_at` omitted: wall-clock metadata never read by the core). -/
structure SessionState where
  session_id : String
  phase : Phase := .evaluator
  evaluator_conversation : List Message := []
  plan : Option EvaluationPlan := none
  teacher_conversation : List Message := []
  teacher_questions_asked : Nat := 0
  teacher_correct : Nat := 0
  current_difficulty : String := "medium"
  quiz_conversation : List Message := []
  quiz_result : Option QuizResult := none
  review_conversation : List Message := []
deriving DecidableEq, Repr

/-- Source `SessionState(session_id=sid)`: a fresh state with pydantic defaults. -/
def SessionState.init (sid : String) : SessionState := { session_id := sid }

/-- Source `SessionState.add_message`: append a message to the conversation of
the given phase. -/
def SessionState.add_message (st : SessionState) (phase : Phase)
    (role content : String) : SessionState :=
  let m : Message := { role := role, content := content }
  match phase with
  | .evaluator => { st with evaluator_conversation := st.evaluator_conversation ++ [m] }
  | .teacher => { st with teacher_conversation := st.teacher_conversation ++ [m] }
  | .quiz => { st with quiz_conversation := st.quiz_conversation ++ [m] }
  | .review => { st with review_conversation := st.review_conversation ++ [m] }

@[simp] theorem add_message_phase (st : SessionState) (p : Phase) (r c : String) :
    (st.add_message p r c).phase = st.phase := by
  cases p <;> rfl

@[simp] theorem add_message_plan (st : SessionState) (p : Phase) (r c : String) :
    (st.add_message p r c).plan = st.plan := by
  cases p <;> rfl

@[simp] theorem add_message_tqa (st : SessionState) (p : Phase) (r c : String) :
    (st.add_message p r c).teacher_questions_asked = st.teacher_questions_asked := by
  cases p <;> rfl

/-- The literal dict `{"low": "easy", "medium": "medium", "high": "hard"}`
with `.get(student_level, "medium")`, as used both in
`SessionState.set_plan` and in `TeacherAgent.__init__`. -/
def levelDifficulty (student_level : String) : String :=
  if student_level = "low" then "easy"
  else if student_level = "medium" then "medium"
  else if student_level = "high" then "hard"
  else "medium"

/-- Source `SessionState.set_plan`: construct the `EvaluationPlan` (pydantic
raises `ValidationError` when `student_level` is outside the declared
`Literal["low", "medium", "high"]`) and derive `current_difficulty`. -/
def SessionState.set_plan (st : SessionState) (student_level teaching_focus : String) :
    Except String SessionState :=
  if student_level = "low" ∨ student_level = "medium" ∨ student_level = "high" then
    .ok { st with
      plan := some { student_level := student_level, teaching_focus := teaching_focus }
      current_difficulty := levelDifficulty student_level }
  else
    .error "ValidationError: student_level must be low, medium or high"

/-- Source `SessionState.transition_to`: unconditionally assign the phase. -/
def SessionState.transition_to (st : SessionState) (phase : Phase) : SessionState :=
  { st with phase := phase }

/-- Source `SessionState.set_quiz_result`. -/
def SessionState.set_quiz_result (st : SessionState) (total correct time_seconds : Nat) :
    SessionState :=
  let r : QuizResult :=
    { total_questions := total
      correct_answers := correct
      score_percentage := if 0 < total then (correct : ℚ) / (total : ℚ) * 100 else 0
      time_taken_seconds := time_seconds }
  { st with quiz_result := some r }

/-! ## Session store (`SessionStore`, `get_session_store`)

The in-memory dict `self._sessions` is modelled as an association list
whose `lookup` takes the most recently inserted binding. -/

/-- Source `SessionStore.create`: insert a fresh state for the id. -/
def storeCreate (store : List (String × SessionState)) (sid : String) :
    SessionState × List (String × SessionState) :=
  let st := SessionState.init sid
  (st, (sid, st) :: store)

/-- Source `SessionStore.get_or_create`: return the existing state unchanged, or
create a new one. -/
def storeGetOrCreate (store : List (String × SessionState)) (sid : String) :
    SessionState × List (String × SessionState) :=
  match store.lookup sid with
  | some st => (st, store)
  | none => storeCreate store sid

/-! ## Evaluator sub-flow (`backend/evaluator/orchestrator.py`)

`EvaluatorOrchestrator` asks 6 fixed questions (3 literal + the first
question of each difficulty pool of the cached question bank) and, after
the 6th answer, sends all Q/A pairs to the LLM (`_evaluate_all`).  The
pool entries selected in `__init__` (`pools["easy"][0]` etc.) and the
parsed JSON of the evaluation call are oracle inputs. -/

/-- A `{question, answer, explanation}` entry of the question bank
(`explanation` is never read by the evaluator flow). -/
structure QA where
  question : String
  answer : String
deriving DecidableEq, Repr

/-- The three pool entries `pools["easy"][0]`, `pools["medium"][0]`,
`pools["hard"][0]` picked in `EvaluatorOrchestrator.__init__`. -/
structure PoolPick where
  easy_q : QA
  medium_q : QA
  hard_q : QA
deriving Repr

/-- Source `StudentPlan` (pydantic model built by `_evaluate_all`).  Note: it
has **no** `teaching_focus` field. -/
structure StudentPlan where
  student_level : String
  overall_score : Int
  main_idea_score : Int
  engagement_score : Int
  text_type_score : Int
  easy_score : Int
  medium_score : Int
  hard_score : Int
  strengths : List String
  weaknesses : List String
  recommended_difficulty : String
  focus_areas : List String
  interests : String
  teaching_approach : String
deriving DecidableEq, Repr

/-- A YAML/JSON scalar value, enough for the keys of `StudentPlan`. -/
inductive YVal where
  | s : String → YVal
  | i : Int → YVal
  | ls : List String → YVal
deriving DecidableEq, Repr

/-- Source `yaml.safe_load(yaml.dump(plan.model_dump()))`: the plan as a dict,
with exactly the fields declared on `StudentPlan`, in declaration order. -/
def StudentPlan.dump (p : StudentPlan) : List (String × YVal) :=
  [("student_level", .s p.student_level),
   ("overall_score", .i p.overall_score),
   ("main_idea_score", .i p.main_idea_score),
   ("engagement_score", .i p.engagement_score),
   ("text_type_score", .i p.text_type_score),
   ("easy_score", .i p.easy_score),
   ("medium_score", .i p.medium_score),
   ("hard_score", .i p.hard_score),
   ("strengths", .ls p.strengths),
   ("weaknesses", .ls p.weaknesses),
   ("recommended_difficulty", .s p.recommended_difficulty),
   ("focus_areas", .ls p.focus_areas),
   ("interests", .s p.interests),
   ("teaching_approach", .s p.teaching_approach)]

/-- Source `d[k]` on a dict: `KeyError` when the key is absent; the call sites
below only ever read string-valued keys. -/
def dictGetStr (d : List (String × YVal)) (k : String) : Except String String :=
  match d.lookup k with
  | some (.s v) => .ok v
  | some _ => .error ("TypeError: " ++ k)
  | none => .error ("KeyError: " ++ k)

/-- Parsed JSON of the `_evaluate_all` LLM call (`eval_data`); every
field is optional, read with `eval_data.get(key, default)`. -/
structure GatewayEval where
  main_idea_score : Option Int := none
  engagement_score : Option Int := none
  text_type_score : Option Int := none
  easy_score : Option Int := none
  medium_score : Option Int := none
  hard_score : Option Int := none
  overall_score : Option Int := none
  student_level : Option String := none
  strengths : Option (List String) := none
  weaknesses : Option (List String) := none
  interests : Option String := none
  recommended_difficulty : Option String := none
  focus_areas : Option (List String) := none
  teaching_approach : Option String := none
deriving Repr

/-- Source `EvaluatorOrchestrator._evaluate_all`: build the `StudentPlan` from
the gateway response, with the literal defaults of the source
(`eval_data.get("student_level", "intermediate")`, scores default 50).
The YAML serialisation and `_save_plan` file write have no effect on the
plan contents and are not modelled. -/
def evaluateAll (g : GatewayEval) : StudentPlan :=
  { student_level := g.student_level.getD "intermediate"
    overall_score := g.overall_score.getD 50
    main_idea_score := g.main_idea_score.getD 50
    engagement_score := g.engagement_score.getD 50
    text_type_score := g.text_type_score.getD 50
    easy_score := g.easy_score.getD 50
    medium_score := g.medium_score.getD 50
    hard_score := g.hard_score.getD 50
    strengths := g.strengths.getD []
    weaknesses := g.weaknesses.getD []
    recommended_difficulty := g.recommended_difficulty.getD "medium"
    focus_areas := g.focus_areas.getD []
    interests := g.interests.getD ""
    teaching_approach := g.teaching_approach.getD "balanced" }

/-- First fixed evaluator question. -/
def evalQ1 : String :=
  "I\x27m going to ask you a few questions so I can tailor your learning. Can you first tell me what this passage is about?"

/-- Second fixed evaluator question. -/
def evalQ2 : String := "What did you like most about this passage or find most interesting?"

/-- Third fixed evaluator question. -/
def evalQ3 : String :=
  "Would you say this piece is fictional or non-fictional? What makes you think that?"

/-- Mutable state of `EvaluatorOrchestrator`. -/
structure EvalState where
  easy_q : QA
  medium_q : QA
  hard_q : QA
  questions : List String
  current_question : Nat
  answers : List String
  is_complete : Bool
  plan_yaml : Option StudentPlan
deriving Repr

/-- Source `EvaluatorOrchestrator.__init__`. -/
def EvalState.init (pools : PoolPick) : EvalState :=
  { easy_q := pools.easy_q
    medium_q := pools.medium_q
    hard_q := pools.hard_q
    questions := [evalQ1, evalQ2, evalQ3,
      pools.easy_q.question, pools.medium_q.question, pools.hard_q.question]
    current_question := 0
    answers := []
    is_complete := false
    plan_yaml := none }

/-- Source `EvaluatorOrchestrator.get_intro_message`: return `questions[0]`. -/
def EvalState.get_intro_message (es : EvalState) : String :=
  es.questions.getD 0 ""

/-- Return dict of `EvaluatorOrchestrator.process_message`. -/
structure EvalPMOut where
  response : String
  is_complete : Bool
  plan_yaml : Option StudentPlan
  show_next_question : Bool
deriving Repr

/-- Source `EvaluatorOrchestrator.process_message`: store the answer, advance
the counter; on the 6th answer run `_evaluate_all`, otherwise return the
next question (`questions[current_question]`, always in bounds when not
complete). -/
def EvalState.process_message (es : EvalState) (g : GatewayEval) (user_message : String) :
    EvalState × EvalPMOut :=
  let es1 := { es with
    answers := es.answers ++ [user_message]
    current_question := es.current_question + 1 }
  if 6 ≤ es1.current_question then
    let plan := evaluateAll g
    let es2 := { es1 with is_complete := true, plan_yaml := some plan }
    (es2,
     { response := "Thank you for answering all my questions! Let me analyze your responses and create a personalized learning plan for you..."
       is_complete := true
       plan_yaml := some plan
       show_next_question := false })
  else
    (es1,
     { response := es1.questions.getD es1.current_question ""
       is_complete := false
       plan_yaml := none
       show_next_question := true })

/-! ## Teacher sub-flow (`backend/teacher/agent.py`)

`TeacherAgent` sends each turn to the LLM; the parsed JSON of the reply
(after `safe_json_parse`, which substitutes a fixed fallback dict on
parse failure) is an oracle input. -/

/-- Source `TeacherAgent._default_plan`: the documented default plan used when
no plan is given (`plan or load_plan(session_id) or self._default_plan()`;
the saved plan file read by `load_plan` is absent in-process, so a missing
argument falls through to this default). -/
def TeacherAgent.default_plan : EvaluationPlan :=
  { student_level := "medium"
    teaching_focus := "Strengthen fundamentals and encourage more detailed responses. Build confidence with medium-difficulty questions." }

/-- Source `evaluation.was_correct` of the teacher gateway reply: compared
against `True` and against the string `"partial"`. -/
inductive WasCorrect where
  | correct
  | partial_credit
  | other
deriving DecidableEq, Repr

/-- The `evaluation` object of a teacher gateway reply (`score` and
`feedback_type` are only logged, never read into state). -/
structure TEvalData where
  was_correct : WasCorrect
deriving Repr

/-- Parsed JSON of a `TeacherAgent` LLM reply (intro or turn); fields
read with `data.get(...)`.  `evaluation := none` covers both an absent
and a falsy `evaluation` entry. -/
structure TMsgData where
  message : Option String := none
  asked_question : Bool := false
  question_difficulty : Option String := none
  evaluation : Option TEvalData := none
  engagement_level : Option String := none
  should_adjust_difficulty : Option String := none
deriving Repr

/-- Mutable state of `TeacherAgent`.  `correct_answers` is a float in
the source (incremented by `1` or `0.5`); modelled as `ℚ`. -/
structure TeacherState where
  session_id : String
  plan : EvaluationPlan
  already_asked : List String
  conversation_history : List Message
  questions_asked : List String
  correct_answers : ℚ
  total_answers : Nat
  current_difficulty : String
deriving Repr

/-- Source `TeacherAgent.__init__`: derive the starting difficulty from the
plan with the same literal dict as `SessionState.set_plan`. -/
def TeacherState.init (session_id : String) (plan? : Option EvaluationPlan)
    (already_asked_questions : List String) : TeacherState :=
  let plan := plan?.getD TeacherAgent.default_plan
  { session_id := session_id
    plan := plan
    already_asked := already_asked_questions
    conversation_history := []
    questions_asked := []
    correct_answers := 0
    total_answers := 0
    current_difficulty := levelDifficulty plan.student_level }

/-- Fallback message of `TeacherAgent.get_intro_message`
(`safe_json_parse` default and `data.get("message", ...)` default). -/
def teacherIntroFallback : String :=
  "Let\x27s practice! Can you tell me about the different roles bees have in the hive?"

/-- Source `TeacherAgent.get_intro_message`: take the gateway reply, append the
assistant turn, record an asked question if flagged. -/
def TeacherState.get_intro_message (t : TeacherState) (d : TMsgData) :
    TeacherState × String :=
  let message := d.message.getD teacherIntroFallback
  let t1 := { t with
    conversation_history := t.conversation_history ++ [({ role := "assistant", content := message } : Message)] }
  let t2 :=
    if d.asked_question then
      { t1 with questions_asked := t1.questions_asked ++ [d.question_difficulty.getD "medium"] }
    else t1
  (t2, message)

/-- Return dict of `TeacherAgent.process_message`. -/
structure TeacherPMOut where
  response : String
  engagement_level : String
  questions_asked : Nat
  accuracy : ℚ
  current_difficulty : String
deriving Repr

/-- Fallback message of `TeacherAgent.process_message`. -/
def teacherTurnFallback : String := "That\x27s interesting! Can you tell me more?"

/-- Source `TeacherAgent.process_message`: append the user turn, track the
evaluation (1 for correct, 0.5 for partial), track an asked question,
move difficulty one step with clamping, append the assistant turn. -/
def TeacherState.process_message (t : TeacherState) (d : TMsgData) (user_message : String) :
    TeacherState × TeacherPMOut :=
  let t1 := { t with
    conversation_history := t.conversation_history ++ [({ role := "user", content := user_message } : Message)] }
  let t2 :=
    match d.evaluation with
    | some e =>
      { t1 with
        total_answers := t1.total_answers + 1
        correct_answers := t1.correct_answers +
          (match e.was_correct with
           | .correct => 1
           | .partial_credit => (1 : ℚ) / 2
           | .other => 0) }
    | none => t1
  let t3 :=
    if d.asked_question then
      { t2 with questions_asked := t2.questions_asked ++ [d.question_difficulty.getD "medium"] }
    else t2
  let t4 :=
    if d.should_adjust_difficulty = some "up" ∧ t3.current_difficulty ≠ "hard" then
      { t3 with current_difficulty := if t3.current_difficulty = "easy" then "medium" else "hard" }
    else if d.should_adjust_difficulty = some "down" ∧ t3.current_difficulty ≠ "easy" then
      { t3 with current_difficulty := if t3.current_difficulty = "hard" then "medium" else "easy" }
    else t3
  let message := d.message.getD teacherTurnFallback
  let t5 := { t4 with
    conversation_history := t4.conversation_history ++ [({ role := "assistant", content := message } : Message)] }
  (t5,
   { response := message
     engagement_level := d.engagement_level.getD "medium"
     questions_asked := t5.questions_asked.length
     accuracy := if 0 < t5.total_answers then t5.correct_answers / (t5.total_answers : ℚ) else 0
     current_difficulty := t5.current_difficulty })

/-! ## Quiz generation (`backend/quiz/generator.py`)

`QuizGenerator.generate` makes one LLM call; its parsed JSON (`quiz_data`)
is an oracle input.  The prompt-building from conversations, plan and
question pools only influences the LLM text and is not re-modelled. -/

/-- One raw question of the LLM quiz reply. -/
structure QRaw where
  question : String
  difficulty : String
  correct_answer : String
  explanation : String
  topic : String
  source : Option String := none
deriving DecidableEq, Repr

/-- Parsed JSON of the quiz-generation LLM call. -/
structure QuizGenData where
  time_limit_seconds : Option Nat := none
  questions : List QRaw := []
deriving Repr

/-- Source `QuizQuestion` (pydantic): `difficulty` is declared
`Literal["easy", "medium", "hard"]` and `source` is declared
`Literal["pool", "generated"]`; as with `EvaluationPlan`, the pydantic
validation is enforced at construction time, in `buildQuestions` below. -/
structure QuizQuestion where
  id : Nat
  question : String
  difficulty : String
  correct_answer : String
  explanation : String
  topic : String
  source : String
deriving DecidableEq, Repr

/-- Source `Quiz` (pydantic). -/
structure Quiz where
  session_id : String
  student_level : String
  total_questions : Nat
  questions : List QuizQuestion
  time_limit_seconds : Nat
deriving DecidableEq, Repr

/-- The pydantic `Literal["easy", "medium", "hard"]` constraint on
`QuizQuestion.difficulty`. -/
def validDifficulty (d : String) : Bool :=
  d == "easy" || d == "medium" || d == "hard"

/-- The pydantic `Literal["pool", "generated"]` constraint on
`QuizQuestion.source`. -/
def validSource (s : String) : Bool :=
  s == "pool" || s == "generated"

/-- Source `enumerate(quiz_data["questions"])` with `id := i + 1` and
`source := q.get("source", "generated")`: each `QuizQuestion(...)`
construction raises pydantic `ValidationError` when `difficulty` or the
defaulted `source` falls outside its `Literal` set, and the list
comprehension raises at the first offending element. -/
def buildQuestions : List QRaw → Nat → Except String (List QuizQuestion)
  | [], _ => .ok []
  | q :: rest, i =>
    if validDifficulty q.difficulty = false then
      .error "ValidationError: difficulty must be easy, medium or hard"
    else if validSource (q.source.getD "generated") = false then
      .error "ValidationError: source must be pool or generated"
    else
      match buildQuestions rest (i + 1) with
      | .error e => .error e
      | .ok qs =>
        .ok ({ id := i + 1
               question := q.question
               difficulty := q.difficulty
               correct_answer := q.correct_answer
               explanation := q.explanation
               topic := q.topic
               source := q.source.getD "generated" } :: qs)

/-- Source `QuizGenerator.generate` given the oracle reply: number and
validate the questions, take `student_level` from the plan dict
(`plan.get("student_level", "medium")`, always present on an
`EvaluationPlan` dump) and default the time limit to 300 seconds.  A
reply with an out-of-set difficulty or source raises `ValidationError`
and no `Quiz` is produced. -/
def generateQuiz (sid : String) (plan : EvaluationPlan) (gd : QuizGenData) :
    Except String Quiz :=
  match buildQuestions gd.questions 0 with
  | .error e => .error e
  | .ok qs =>
    .ok { session_id := sid
          student_level := plan.student_level
          total_questions := qs.length
          questions := qs
          time_limit_seconds := gd.time_limit_seconds.getD 300 }

/-! ## Quiz submission payloads (`submit_quiz` / `_generate_quiz_review`) -/

/-- One submitted answer: `{"question_id": int, "answer": str}`. -/
structure AnswerIn where
  question_id : Nat
  answer : String
deriving DecidableEq, Repr

/-- One entry of `question_reviews` in the parsed review LLM reply. -/
structure ReviewItem where
  question_id : Nat
  is_correct : Bool
  feedback : String
deriving DecidableEq, Repr

/-- Parsed JSON of the `_generate_quiz_review` LLM call. -/
structure ReviewData where
  score : Nat
  summary : String
  question_reviews : List ReviewItem
deriving Repr

/-- One matched Q/A pair built by `submit_quiz`. -/
structure QaPair where
  question_id : Nat
  question : String
  difficulty : String
  user_answer : String
  correct_answer : String
  explanation : String
deriving DecidableEq, Repr

/-- The `qa_pairs` loop of `submit_quiz`: answers whose `question_id`
matches no generated question are skipped with `continue`. -/
def buildQaPairs (quiz : Quiz) (answers : List AnswerIn) : List QaPair :=
  answers.filterMap fun a =>
    match quiz.questions.find? (fun q => q.id = a.question_id) with
    | none => none
    | some q => some
      { question_id := a.question_id
        question := q.question
        difficulty := q.difficulty
        user_answer := a.answer
        correct_answer := q.correct_answer
        explanation := q.explanation }

/-- A per-question review merged back with the original question data
(the merge finds the matching `qa_pairs` entry by `question_id`; entries
with no match keep only the gateway fields). -/
structure MergedReview where
  question_id : Nat
  is_correct : Bool
  feedback : String
  question : Option String := none
  user_answer : Option String := none
  correct_answer : Option String := none
  difficulty : Option String := none
deriving DecidableEq, Repr

/-- The round-trip join of `_generate_quiz_review`: enrich each review
entry with the matching Q/A pair, joined by `question_id`. -/
def mergeReviews (reviews : List ReviewItem) (qa : List QaPair) : List MergedReview :=
  reviews.map fun r =>
    match qa.find? (fun p => p.question_id = r.question_id) with
    | some p =>
      { question_id := r.question_id
        is_correct := r.is_correct
        feedback := r.feedback
        question := some p.question
        user_answer := some p.user_answer
        correct_answer := some p.correct_answer
        difficulty := some p.difficulty }
    | none =>
      { question_id := r.question_id
        is_correct := r.is_correct
        feedback := r.feedback }

/-- The success payload of `submit_quiz`. -/
structure SubmitPayload where
  phase : String
  score : Nat
  total : Nat
  percentage : ℚ
  summary : String
  question_reviews : List MergedReview
deriving Repr

/-- Return value of `submit_quiz`: either the structured failure dict
`{"error": "No quiz available"}` or the success dict. -/
inductive SubmitResult where
  | errorDict (msg : String)
  | payload (p : SubmitPayload)
deriving Repr

/-- Whether a `submit_quiz` return dict carries `"success": True`. -/
def SubmitResult.isSuccess : SubmitResult → Bool
  | .errorDict _ => false
  | .payload _ => true

/-! ## SessionOrchestrator (`backend/orchestrator.py`) -/

/-- Source `SessionOrchestrator.TEACHER_QUESTIONS_BEFORE_QUIZ`. -/
def TEACHER_QUESTIONS_BEFORE_QUIZ : Nat := 5

/-- The per-session fields of a `SessionOrchestrator` instance
(`_review` is a constant `None` placeholder and carries no state). -/
structure OrchState where
  session_id : String
  state : SessionState
  evaluator : Option EvalState := none
  teacher : Option TeacherState := none
  quiz : Option Quiz := none
  quiz_current_index : Nat := 0
deriving Repr

/-- Source `SessionOrchestrator.__init__`: resolve the session state through
the global store (`store.get_or_create`), reset all lazy agent fields. -/
def orchInit (store : List (String × SessionState)) (sid : String) :
    OrchState × List (String × SessionState) :=
  let (st, store1) := storeGetOrCreate store sid
  ({ session_id := sid, state := st }, store1)

/-- One bundle of oracle inputs for a single orchestrator operation: the
question-bank picks and the parsed replies of every LLM call the
operation may make. -/
structure StepOracle where
  pools : PoolPick
  evalGw : GatewayEval
  tIntro : TMsgData
  tMsg : TMsgData
  quizGen : QuizGenData
  review : ReviewData
deriving Repr

/-- Source `SessionOrchestrator._get_evaluator`: lazily create the evaluator. -/
def ensureEvaluator (o : OrchState) (pools : PoolPick) : EvalState × OrchState :=
  match o.evaluator with
  | some e => (e, o)
  | none =>
    let e := EvalState.init pools
    (e, { o with evaluator := some e })

/-- Source `SessionOrchestrator._get_teacher`: raise `ValueError` when no plan
is set, otherwise lazily create the teacher with the plan dump and the
questions already asked by the evaluator. -/
def getTeacherAgent (o : OrchState) : Except String (TeacherState × OrchState) :=
  match o.teacher with
  | some t => .ok (t, o)
  | none =>
    match o.state.plan with
    | none => .error "ValueError: Cannot create teacher without evaluation plan"
    | some p =>
      let already_asked :=
        match o.evaluator with
        | some e => e.questions
        | none => []
      let t := TeacherState.init o.session_id (some p) already_asked
      .ok (t, { o with teacher := some t })

/-- Source `SessionOrchestrator._generate_quiz`: `self.state.plan.model_dump()`
raises `AttributeError` when the plan is `None`; otherwise build the quiz
from the oracle reply and reset the question index. -/
def generateQuizOp (o : OrchState) (gd : QuizGenData) :
    Except String (Quiz × OrchState) :=
  match o.state.plan with
  | none => .error "AttributeError: NoneType object has no attribute model_dump"
  | some p =>
    match generateQuiz o.session_id p gd with
    | .error e => .error e
    | .ok q => .ok (q, { o with quiz := some q, quiz_current_index := 0 })

/-- Source `SessionOrchestrator._build_quiz_intro` (called with `_quiz` set):
`self._quiz.questions[0]` raises `IndexError` on an empty quiz. -/
def buildQuizIntro (q : Quiz) : Except String String :=
  match q.questions with
  | [] => .error "IndexError: quiz has no questions"
  | q0 :: _ =>
    .ok ("Great practice session! Now let\x27s see what you\x27ve learned.\n\nI have "
      ++ toString q.total_questions
      ++ " questions for you. Take your time - you have "
      ++ toString (q.time_limit_seconds / 60)
      ++ " minutes.\n\nHere\x27s your first question:\n\n**Question 1:** "
      ++ q0.question)

/-- Return dict of `get_intro`. -/
structure IntroResult where
  response : String
  phase : String
  plan : Option EvaluationPlan
deriving Repr

/-- Source `SessionOrchestrator.get_intro`: produce (and log) the opening
message of the current phase. -/
def getIntro (o : OrchState) (g : StepOracle) : OrchState × Except String IntroResult :=
  match o.state.phase with
  | .evaluator =>
    let (ev, o1) := ensureEvaluator o g.pools
    let intro := ev.get_intro_message
    let o2 := { o1 with state := o1.state.add_message .evaluator "assistant" intro }
    (o2, .ok { response := intro, phase := o2.state.phase.value, plan := o2.state.plan })
  | .teacher =>
    match getTeacherAgent o with
    | .error e => (o, .error e)
    | .ok (t, o1) =>
      let (t1, intro) := t.get_intro_message g.tIntro
      let o2 := { o1 with
        teacher := some t1
        state := o1.state.add_message .teacher "assistant" intro }
      (o2, .ok { response := intro, phase := o2.state.phase.value, plan := o2.state.plan })
  | .quiz =>
    let ensured : Except String (Quiz × OrchState) :=
      match o.quiz with
      | some q => .ok (q, o)
      | none => generateQuizOp o g.quizGen
    match ensured with
    | .error e => (o, .error e)
    | .ok (q, o1) =>
      match buildQuizIntro q with
      | .error e => (o1, .error e)
      | .ok intro =>
        let o2 := { o1 with state := o1.state.add_message .quiz "assistant" intro }
        (o2, .ok { response := intro, phase := o2.state.phase.value, plan := o2.state.plan })
  | .review =>
    let intro := "Great work! Let\x27s review how you did today."
    let o2 := { o with state := o.state.add_message .review "assistant" intro }
    (o2, .ok { response := intro, phase := o2.state.phase.value, plan := o2.state.plan })

/-- The caller-visible projection of a quiz question (answers omitted). -/
structure QuizPublicQ where
  id : Nat
  question : String
  difficulty : String
deriving DecidableEq, Repr

/-- The `quiz_data` payload returned on the TEACHER → QUIZ transition. -/
structure QuizPayload where
  total_questions : Nat
  time_limit_seconds : Nat
  questions : List QuizPublicQ
deriving DecidableEq, Repr

/-- Return dict of `process_message` (optional keys as `Option`). -/
structure PMResult where
  response : String
  phase : String
  plan : Option EvaluationPlan
  transitioned : Bool
  session_complete : Bool
  show_quiz : Bool := false
  quiz_data : Option QuizPayload := none
  teacher_questions : Option Nat := none
  questions_until_quiz : Option Nat := none
deriving Repr

/-- Source `SessionOrchestrator._process_evaluator`: append the user turn, run
the evaluator; on completion parse the plan YAML, set the plan (the dict
lookups `plan_data["student_level"]` and `plan_data["teaching_focus"]`
are evaluated left to right before `set_plan` runs), transition to
TEACHER and merge in the teacher intro. -/
def processEvaluator (o : OrchState) (g : StepOracle) (user_message : String) :
    OrchState × Except String PMResult :=
  let st0 := o.state.add_message .evaluator "user" user_message
  let (ev, o1) := ensureEvaluator { o with state := st0 } g.pools
  let (ev1, r) := ev.process_message g.evalGw user_message
  let o2 := { o1 with evaluator := some ev1 }
  if r.is_complete then
    match r.plan_yaml with
    | none => (o2, .error "TypeError: NoneType object is not subscriptable")
    | some plan =>
      let d := plan.dump
      match dictGetStr d "student_level" with
      | .error e => (o2, .error e)
      | .ok lvl =>
        match dictGetStr d "teaching_focus" with
        | .error e => (o2, .error e)
        | .ok focus =>
          match o2.state.set_plan lvl focus with
          | .error e => (o2, .error e)
          | .ok stp =>
            let stp1 := stp.add_message .evaluator "assistant" r.response
            let stt := stp1.transition_to .teacher
            match getTeacherAgent { o2 with state := stt } with
            | .error e => ({ o2 with state := stt }, .error e)
            | .ok (t, o3) =>
              let (t1, teacher_intro) := t.get_intro_message g.tIntro
              let st4 := o3.state.add_message .teacher "assistant" teacher_intro
              let o4 := { o3 with teacher := some t1, state := st4 }
              (o4, .ok
                { response := r.response ++ "\n\n" ++ teacher_intro
                  phase := "teacher"
                  plan := o4.state.plan
                  transitioned := true
                  session_complete := false })
  else
    let st2 := o2.state.add_message .evaluator "assistant" r.response
    ({ o2 with state := st2 }, .ok
      { response := r.response
        phase := "evaluator"
        plan := none
        transitioned := false
        session_complete := false })

/-- Source `SessionOrchestrator._process_teacher`: append the user turn, run
the teacher agent, copy its counters into the session state, append the
assistant turn; when `teacher_questions_asked` has reached
`TEACHER_QUESTIONS_BEFORE_QUIZ`, generate the quiz and transition. -/
def processTeacher (o : OrchState) (g : StepOracle) (user_message : String) :
    OrchState × Except String PMResult :=
  let st0 := o.state.add_message .teacher "user" user_message
  let o0 := { o with state := st0 }
  match getTeacherAgent o0 with
  | .error e => (o0, .error e)
  | .ok (t, o1) =>
    let (t1, r) := t.process_message g.tMsg user_message
    let st1 := { o1.state with
      teacher_questions_asked := r.questions_asked
      current_difficulty := r.current_difficulty }
    let st2 := st1.add_message .teacher "assistant" r.response
    let o2 := { o1 with teacher := some t1, state := st2 }
    if TEACHER_QUESTIONS_BEFORE_QUIZ ≤ o2.state.teacher_questions_asked then
      match generateQuizOp o2 g.quizGen with
      | .error e => (o2, .error e)
      | .ok (quiz, o3) =>
        let o4 := { o3 with state := o3.state.transition_to .quiz }
        let quiz_questions := quiz.questions.map fun q =>
          ({ id := q.id, question := q.question, difficulty := q.difficulty } : QuizPublicQ)
        (o4, .ok
          { response := r.response ++ "\n\nGreat practice! Let\x27s see what you\x27ve learned with a quick quiz."
            phase := "quiz"
            plan := o4.state.plan
            transitioned := true
            session_complete := false
            show_quiz := true
            quiz_data := some
              { total_questions := quiz.total_questions
                time_limit_seconds := quiz.time_limit_seconds
                questions := quiz_questions } })
    else
      (o2, .ok
        { response := r.response
          phase := "teacher"
          plan := o2.state.plan
          transitioned := false
          session_complete := false
          teacher_questions := some o2.state.teacher_questions_asked
          questions_until_quiz := some (TEACHER_QUESTIONS_BEFORE_QUIZ - o2.state.teacher_questions_asked) })

/-- Source `SessionOrchestrator._process_quiz`: chat during the quiz phase is a
fixed redirect, no state change. -/
def processQuiz (o : OrchState) : OrchState × Except String PMResult :=
  (o, .ok
    { response := "Please complete the quiz using the quiz interface."
      phase := "quiz"
      plan := o.state.plan
      transitioned := false
      session_complete := false
      show_quiz := true })

/-- Source `SessionOrchestrator._process_review`: log both turns, return the
fixed closing acknowledgment (`_persist_session` is best-effort and has
no effect on session state). -/
def processReview (o : OrchState) (user_message : String) :
    OrchState × Except String PMResult :=
  let st0 := o.state.add_message .review "user" user_message
  let response := "Thanks for practicing today! Your session is complete."
  let st1 := st0.add_message .review "assistant" response
  ({ o with state := st1 }, .ok
    { response := response
      phase := "review"
      plan := o.state.plan
      transitioned := false
      session_complete := true })

/-- Source `SessionOrchestrator.process_message`: dispatch on the phase. -/
def processMessage (o : OrchState) (g : StepOracle) (user_message : String) :
    OrchState × Except String PMResult :=
  match o.state.phase with
  | .evaluator => processEvaluator o g user_message
  | .teacher => processTeacher o g user_message
  | .quiz => processQuiz o
  | .review => processReview o user_message

/-- Source `SessionOrchestrator.submit_quiz`: return the structured failure
dict when no quiz is active (no state change); otherwise build the
matched Q/A pairs, obtain the batched LLM review (oracle input `rd`),
score with the zero-total guard, store the `QuizResult` and transition
to REVIEW (`_persist_session` is best-effort, no state effect). -/
def submitQuiz (o : OrchState) (rd : ReviewData) (answers : List AnswerIn) :
    OrchState × Except String SubmitResult :=
  match o.quiz with
  | none => (o, .ok (.errorDict "No quiz available"))
  | some quiz =>
    let qa_pairs := buildQaPairs quiz answers
    let correct_count := rd.score
    let total := qa_pairs.length
    let percentage : ℚ :=
      if 0 < total then (correct_count : ℚ) / (total : ℚ) * 100 else 0
    let st1 := o.state.set_quiz_result total correct_count 0
    let st2 := st1.transition_to .review
    let merged := mergeReviews rd.question_reviews qa_pairs
    ({ o with state := st2 }, .ok (.payload
      { phase := "review"
        score := correct_count
        total := total
        percentage := percentage
        summary := rd.summary
        question_reviews := merged }))

/-- Return dicts of `skip_to_phase`: `{"success": False, "error": ...}`
or `{"success": True, "response": ..., "phase": ...}`. -/
inductive SkipResult where
  | failure (error : String)
  | success (response : String) (phase : String)
deriving Repr

/-- Source `SessionOrchestrator.skip_to_phase`: reject a non-forward target
with a structured failure (state untouched); otherwise transition and
call `get_intro` on the new phase. -/
def skipToPhase (o : OrchState) (g : StepOracle) (target_phase : Phase) :
    OrchState × Except String SkipResult :=
  let current_idx := phaseIdx o.state.phase
  let target_idx := phaseIdx target_phase
  if target_idx ≤ current_idx then
    (o, .ok (.failure ("Cannot go back to " ++ target_phase.value)))
  else
    let o1 := { o with state := o.state.transition_to target_phase }
    match getIntro o1 g with
    | (o2, .error e) => (o2, .error e)
    | (o2, .ok ir) => (o2, .ok (.success ir.response target_phase.value))

/-! ## Global orchestrator registry (`get_orchestrator`,
`create_orchestrator`)

The module-level dict `_orchestrators` is modelled as an association
list whose `lookup` takes the most recently inserted binding, so
prepending models `dict` assignment (replacement). -/

/-- Source `get_orchestrator`: get or create the orchestrator for a session. -/
def get_orchestrator (registry : List (String × OrchState))
    (store : List (String × SessionState)) (sid : String) :
    OrchState × List (String × OrchState) × List (String × SessionState) :=
  match registry.lookup sid with
  | some o => (o, registry, store)
  | none =>
    let (o, store1) := orchInit store sid
    (o, (sid, o) :: registry, store1)

/-- Source `create_orchestrator`: create a new orchestrator, replacing any
existing one for the same id. -/
def create_orchestrator (registry : List (String × OrchState))
    (store : List (String × SessionState)) (sid : String) :
    OrchState × List (String × OrchState) × List (String × SessionState) :=
  let (o, store1) := orchInit store sid
  (o, (sid, o) :: registry, store1)

/-! ## The operation step of a session

One inbound request to the orchestrator is one of the four operations of
§4.2 of the design (plus the administrative skip). -/

/-- One orchestrator operation. -/
inductive Op where
  | introOp
  | messageOp (user_message : String)
  | submitOp (answers : List AnswerIn)
  | skipOp (target_phase : Phase)

/-- The session state reached by running one operation (the returned
value, successful or not, is dropped; exceptions leave the mutations
already performed in place, as in the Python objects). -/
def stepState (o : OrchState) (g : StepOracle) : Op → OrchState
  | .introOp => (getIntro o g).1
  | .messageOp m => (processMessage o g m).1
  | .submitOp a => (submitQuiz o g.review a).1
  | .skipOp t => (skipToPhase o g t).1

/-! ## Result projections used in theorem statements -/

/-- Source `transitioned` field of a `process_message` outcome, `none` when the
call raised. -/
def pmTransitioned : Except String PMResult → Option Bool
  | .ok r => some r.transitioned
  | .error _ => none

/-- Whether a `submit_quiz` call returned normally (no exception). -/
def subReturned : Except String SubmitResult → Bool
  | .ok _ => true
  | .error _ => false

/-- Whether a `submit_quiz` call returned the success dict. -/
def subIsSuccess : Except String SubmitResult → Bool
  | .ok r => r.isSuccess
  | .error _ => false

/-- Source `quiz_result.total` of a successful `submit_quiz` outcome. -/
def subTotal : Except String SubmitResult → Option Nat
  | .ok (.payload p) => some p.total
  | _ => none

/-- Source `quiz_result.percentage` of a successful `submit_quiz` outcome. -/
def subPercentage : Except String SubmitResult → Option ℚ
  | .ok (.payload p) => some p.percentage
  | _ => none

/-! ## Concrete sample data for witnesses and counterexamples -/

/-- A sample question-bank entry. -/
def demoQA : QA := { question := "What does the queen bee do?", answer := "She lays eggs." }

/-- Sample pool picks. -/
def demoPools : PoolPick := { easy_q := demoQA, medium_q := demoQA, hard_q := demoQA }

/-- A sample evaluation reply whose level is outside
`{low, medium, high}` (the prompt asks the LLM for
`beginner/intermediate/advanced`). -/
def demoEvalGw : GatewayEval := { student_level := some "advanced" }

/-- A sample evaluation reply with no `student_level` key at all. -/
def demoEvalGwMissing : GatewayEval := {}

/-- A sample teacher intro reply. -/
def demoTIntro : TMsgData :=
  { message := some "Welcome! What do drones do?"
    asked_question := true
    question_difficulty := some "medium" }

/-- A sample teacher turn reply that asks a question. -/
def demoTMsg : TMsgData :=
  { message := some "Good! Next question."
    asked_question := true
    question_difficulty := some "medium" }

/-- A sample generated quiz question. -/
def demoQRaw : QRaw :=
  { question := "Why are drones pushed out?"
    difficulty := "medium"
    correct_answer := "Food is scarce."
    explanation := "Winter resources."
    topic := "details" }

/-- A sample quiz-generation reply with one question. -/
def demoQuizGen : QuizGenData := { time_limit_seconds := some 300, questions := [demoQRaw] }

/-- A sample quiz-review reply. -/
def demoReview : ReviewData :=
  { score := 1
    summary := "Nice work."
    question_reviews := [{ question_id := 1, is_correct := true, feedback := "Correct." }] }

/-- A fixed oracle bundle for sample runs. -/
def demoOracle : StepOracle :=
  { pools := demoPools
    evalGw := demoEvalGw
    tIntro := demoTIntro
    tMsg := demoTMsg
    quizGen := demoQuizGen
    review := demoReview }

/-- A fresh orchestrator created over an empty store. -/
def demoStart : OrchState := (orchInit [] "sess").1

/-- Run a list of chat messages through `process_message` with the
sample oracle. -/
def runMessages : OrchState → List String → OrchState
  | o, [] => o
  | o, m :: ms => runMessages (processMessage o demoOracle m).1 ms

/-! ## C4 — difficulty mapping on plan assignment -/

/-- C4: immediately after `set_plan`, `current_difficulty` equals the
fixed mapping applied to the plan field `student_level`: low maps to easy,
medium to medium, and high to hard (for every prior session state and
every teaching focus). -/
theorem set_plan_difficulty_mapping :
    ∀ (st : SessionState) (focus : String),
      (st.set_plan "low" focus).map (fun s => s.current_difficulty) = .ok "easy" ∧
      (st.set_plan "low" focus).map (fun s => s.plan) =
        .ok (some { student_level := "low", teaching_focus := focus }) ∧
      (st.set_plan "medium" focus).map (fun s => s.current_difficulty) = .ok "medium" ∧
      (st.set_plan "medium" focus).map (fun s => s.plan) =
        .ok (some { student_level := "medium", teaching_focus := focus }) ∧
      (st.set_plan "high" focus).map (fun s => s.current_difficulty) = .ok "hard" ∧
      (st.set_plan "high" focus).map (fun s => s.plan) =
        .ok (some { student_level := "high", teaching_focus := focus }) := by
  intro st focus
  exact ⟨rfl, rfl, rfl, rfl, rfl, rfl⟩

/-! ## C10 — orchestrator re-creation reuses the stored session state -/

/-- C10: constructing a `SessionOrchestrator` (also through
`create_orchestrator`, which replaces any registered orchestrator) for a
session id already present in the store reuses the stored `SessionState`
unchanged — the store is not modified and no field of the state (phase,
conversation logs, plan, quiz result, counters) is reset. -/
theorem create_orchestrator_reuses_state :
    ∀ (registry : List (String × OrchState)) (store : List (String × SessionState))
      (sid : String) (st : SessionState),
      store.lookup sid = some st →
      (create_orchestrator registry store sid).1.state = st ∧
      (create_orchestrator registry store sid).2.2 = store ∧
      (orchInit store sid).1.state = st ∧
      (orchInit store sid).2 = store ∧
      (create_orchestrator registry store sid).2.1.lookup sid =
        some (create_orchestrator registry store sid).1 := by
  intro registry store sid st h
  simp [create_orchestrator, orchInit, storeGetOrCreate, h, List.lookup]

/-- A previously mutated session state for the C10 witness. -/
def demoStoredState : SessionState :=
  { session_id := "s1"
    phase := .teacher
    evaluator_conversation := [{ role := "user", content := "hi" }]
    plan := some { student_level := "high", teaching_focus := "inference" }
    teacher_questions_asked := 3
    current_difficulty := "hard" }

/-- A store holding `demoStoredState`. -/
def demoStore : List (String × SessionState) := [("s1", demoStoredState)]

/-- Witness for C10 at a concrete store: re-creation preserves the
stored phase, plan and counters. -/
theorem create_orchestrator_reuses_state_witness :
    demoStore.lookup "s1" = some demoStoredState ∧
    (create_orchestrator [] demoStore "s1").1.state = demoStoredState ∧
    (create_orchestrator [] demoStore "s1").2.2 = demoStore := by
  have h : demoStore.lookup "s1" = some demoStoredState := rfl
  have := create_orchestrator_reuses_state [] demoStore "s1" demoStoredState h
  exact ⟨h, this.1, this.2.1⟩

/-! ## C3 — the evaluator does not clamp the level and produces no
teaching focus

The spec (§4.3) states that the gateway level is kept only when it lies
in `{low, medium, high}` and replaced by `medium` otherwise, and that
`teaching_focus` comes from a fixed level-keyed lookup table.
`_evaluate_all` instead stores the gateway string verbatim (its prompt
even requests `beginner/intermediate/advanced`), defaults a *missing*
level to `"intermediate"`, and emits no `teaching_focus` field at all —
which the downstream `EvaluationPlan` type and
`plan_data["teaching_focus"]` lookup in `_process_evaluator` require. -/

/-- C3: the code stores the gateway level verbatim (`"advanced"` is not
replaced by `"medium"`), a missing level defaults to `"intermediate"`
(not `"medium"`), the dumped plan has no `teaching_focus` key, and the
verbatim level is rejected by the `EvaluationPlan` validation used by
`SessionState.set_plan`. -/
theorem evaluator_level_not_clamped :
    (evaluateAll demoEvalGw).student_level = "advanced" ∧
    (evaluateAll demoEvalGwMissing).student_level = "intermediate" ∧
    (evaluateAll demoEvalGw).dump.lookup "teaching_focus" = none ∧
    dictGetStr (evaluateAll demoEvalGw).dump "teaching_focus" =
      .error "KeyError: teaching_focus" ∧
    (SessionState.init "s").set_plan (evaluateAll demoEvalGw).student_level "x" =
      .error "ValidationError: student_level must be low, medium or high" := by
  exact ⟨rfl, rfl, rfl, rfl, rfl⟩

/-! ## C9 — skipping past EVALUATOR does not fall back to a default plan

`TeacherAgent._default_plan` is the documented default, and
`TeacherAgent.__init__` would substitute it, but
`SessionOrchestrator._get_teacher` raises `ValueError` before the agent
is ever constructed when `state.plan` is `None`, so a session skipped
past EVALUATOR fails instead of using the default plan. -/

/-- A fresh orchestrator for the skip run (phase EVALUATOR, no plan). -/
def demoFresh : OrchState := (orchInit [] "fresh").1

/-- C9: skipping a fresh session to TEACHER raises `ValueError` from
`_get_teacher` (the phase is already advanced when the intro is
attempted) instead of succeeding — even though the agent-level default
(`TeacherAgent._default_plan`) exists and would be substituted when the
agent is constructed without a plan. -/
theorem skip_to_teacher_without_plan_raises :
    (skipToPhase demoFresh demoOracle Phase.teacher).2 =
      .error "ValueError: Cannot create teacher without evaluation plan" ∧
    (skipToPhase demoFresh demoOracle Phase.teacher).1.state.phase = Phase.teacher ∧
    (skipToPhase demoFresh demoOracle Phase.teacher).1.state.plan = none ∧
    (TeacherState.init "fresh" none []).plan = TeacherAgent.default_plan := by
  exact ⟨rfl, rfl, rfl, rfl⟩

/-! ## C2 — the 6th evaluator answer crashes instead of transitioning

The evaluator sub-flow does complete on the 6th answer, but
`_process_evaluator` then evaluates `plan_data["teaching_focus"]` on the
dumped `StudentPlan`, which has no such key: the 6th call raises
`KeyError` before `set_plan` ever runs, so the plan stays `None` and the
phase stays EVALUATOR. -/

/-- The session after 4 evaluator answers. -/
def demoAfter4 : OrchState := runMessages demoStart ["a1", "a2", "a3", "a4"]

/-- The session after 5 evaluator answers. -/
def demoAfter5 : OrchState := (processMessage demoAfter4 demoOracle "a5").1

/-- C2: answers 1–5 do not transition (after the 5th call the phase is
still EVALUATOR, the plan is `None`, and the call returned
`transitioned=false`), and the 6th `process_message` call raises
`KeyError: teaching_focus` — leaving the plan `None` and the phase
EVALUATOR — instead of setting a non-null plan and returning
`transitioned=true`. -/
theorem sixth_evaluator_message_raises :
    pmTransitioned (processMessage demoAfter4 demoOracle "a5").2 = some false ∧
    demoAfter5.state.phase = Phase.evaluator ∧
    demoAfter5.state.plan = none ∧
    (demoAfter5.evaluator.map (fun e => e.current_question)) = some 5 ∧
    (processMessage demoAfter5 demoOracle "a6").2 = .error "KeyError: teaching_focus" ∧
    (processMessage demoAfter5 demoOracle "a6").1.state.plan = none ∧
    (processMessage demoAfter5 demoOracle "a6").1.state.phase = Phase.evaluator ∧
    ((processMessage demoAfter5 demoOracle "a6").1.evaluator.map (fun e => e.is_complete)) =
      some true := by
  exact ⟨rfl, rfl, rfl, rfl, rfl, rfl, rfl, rfl⟩

/-! ## C6 — submit_quiz checks only the quiz, not the phase

`submit_quiz` guards only `self._quiz`; it never reads `state.phase`.
With no active quiz it returns the structured dict
`{"error": "No quiz available"}` and leaves the state untouched — but
with a quiz present it also succeeds *outside* the QUIZ phase: after a
first submission has moved the session to REVIEW, a second submission
succeeds again. -/

/-- The quiz produced by the validated generator from `demoQuizGen`
(see `demoQuiz_generated`). -/
def demoQuiz : Quiz :=
  { session_id := "sess"
    student_level := "medium"
    total_questions := 1
    questions := [{ id := 1
                    question := "Why are drones pushed out?"
                    difficulty := "medium"
                    correct_answer := "Food is scarce."
                    explanation := "Winter resources."
                    topic := "details"
                    source := "generated" }]
    time_limit_seconds := 300 }

/-- Sanity check: `demoQuiz` is exactly what `generateQuiz` returns for
the sample reply, so the sample sessions hold a reachable quiz. -/
theorem demoQuiz_generated :
    generateQuiz "sess" { student_level := "medium", teaching_focus := "details" }
      demoQuizGen = .ok demoQuiz := rfl

/-- A session legitimately in the QUIZ phase with a generated quiz. -/
def demoQuizO : OrchState :=
  { session_id := "sess"
    state := { session_id := "sess"
               phase := .quiz
               plan := some { student_level := "medium", teaching_focus := "details" } }
    quiz := some demoQuiz }

/-- A submitted answer matching quiz question 1. -/
def demoAnswers : List AnswerIn := [{ question_id := 1, answer := "Food is scarce." }]

/-- The session after a first (legitimate) quiz submission. -/
def demoAfterSubmit : OrchState := (submitQuiz demoQuizO demoReview demoAnswers).1

/-- C6 counterexample: after a first submission the session is in
REVIEW (not QUIZ) and the quiz is still held, yet a second
`submit_quiz` call succeeds — refuting "valid only while the session
phase is QUIZ". -/
theorem submit_quiz_valid_outside_quiz_phase :
    demoAfterSubmit.state.phase = Phase.review ∧
    demoAfterSubmit.state.phase ≠ Phase.quiz ∧
    demoAfterSubmit.quiz.isSome = true ∧
    subIsSuccess (submitQuiz demoAfterSubmit demoReview demoAnswers).2 = true := by
  refine ⟨rfl, by decide, rfl, rfl⟩

/-- C6 (amended): `submit_quiz` requires only that a quiz has been
generated — the phase is never checked; with no active quiz it returns
the structured failure `{"error": "No quiz available"}` (a value, not an
exception) and leaves the orchestrator state exactly unchanged, and with
a quiz present it succeeds and moves the session to REVIEW. -/
theorem submit_quiz_requires_only_quiz :
    ∀ (o : OrchState) (rd : ReviewData) (answers : List AnswerIn),
      (o.quiz = none →
        submitQuiz o rd answers = (o, .ok (.errorDict "No quiz available"))) ∧
      (∀ q, o.quiz = some q →
        subIsSuccess (submitQuiz o rd answers).2 = true ∧
        (submitQuiz o rd answers).1.state.phase = Phase.review) := by
  intro o rd answers
  constructor
  · intro h
    simp [submitQuiz, h]
  · intro q h
    simp [submitQuiz, h, subIsSuccess, SubmitResult.isSuccess, SessionState.transition_to]

/-- An orchestrator with no generated quiz, mid-TEACHER. -/
def demoNoQuizO : OrchState :=
  { session_id := "sess"
    state := { session_id := "sess", phase := .teacher } }

/-- Witness for the amended C6: the no-quiz call returns the structured
failure unchanged-state pair, and the with-quiz call succeeds. -/
theorem submit_quiz_requires_only_quiz_witness :
    submitQuiz demoNoQuizO demoReview demoAnswers =
      (demoNoQuizO, .ok (.errorDict "No quiz available")) ∧
    subIsSuccess (submitQuiz demoQuizO demoReview demoAnswers).2 = true := by
  refine ⟨(submit_quiz_requires_only_quiz demoNoQuizO demoReview demoAnswers).1 rfl, ?_⟩
  exact (((submit_quiz_requires_only_quiz demoQuizO demoReview demoAnswers).2
    demoQuiz rfl)).1

/-! ## C7 — zero matched total: no division, still transitions -/

/-- C7: whenever the matched question set is empty (`total = 0`),
`submit_quiz` reports `percentage = 0`, stores a `QuizResult` with
`score_percentage = 0` and `total_questions = 0` (no division by zero),
and the session still transitions to REVIEW. -/
theorem submit_quiz_zero_total :
    ∀ (o : OrchState) (q : Quiz) (rd : ReviewData) (answers : List AnswerIn),
      o.quiz = some q →
      buildQaPairs q answers = [] →
      subPercentage (submitQuiz o rd answers).2 = some 0 ∧
      ((submitQuiz o rd answers).1.state.quiz_result.map
        (fun r => r.score_percentage)) = some 0 ∧
      ((submitQuiz o rd answers).1.state.quiz_result.map
        (fun r => r.total_questions)) = some 0 ∧
      (submitQuiz o rd answers).1.state.phase = Phase.review := by
  intro o q rd answers hq hqa
  simp [submitQuiz, hq, hqa, subPercentage, SessionState.set_quiz_result,
    SessionState.transition_to]

/-- An answer whose id matches no generated question. -/
def demoUnmatched : List AnswerIn := [{ question_id := 99, answer := "???" }]

/-- Witness for C7: submitting only an unmatched answer gives an empty
matched set, percentage 0 and phase REVIEW. -/
theorem submit_quiz_zero_total_witness :
    buildQaPairs demoQuiz demoUnmatched = [] ∧
    subPercentage (submitQuiz demoQuizO demoReview demoUnmatched).2 = some 0 ∧
    (submitQuiz demoQuizO demoReview demoUnmatched).1.state.phase = Phase.review := by
  have h := submit_quiz_zero_total demoQuizO demoQuiz
    demoReview demoUnmatched rfl rfl
  exact ⟨rfl, h.1, h.2.2.2⟩

/-! ## C8 — unmatched question ids are silently excluded from scoring -/

/-- Source `(buildQaPairs q answers).length` counts exactly the answers whose
`question_id` matches a generated question. -/
theorem buildQaPairs_length (q : Quiz) (answers : List AnswerIn) :
    (buildQaPairs q answers).length =
      (answers.filter
        (fun a => (q.questions.find? (fun qq => qq.id = a.question_id)).isSome)).length := by
  induction answers with
  | nil => rfl
  | cons a as ih =>
    simp only [buildQaPairs, List.filterMap_cons, List.filter_cons] at *
    cases h : q.questions.find? (fun qq => qq.id = a.question_id) <;>
      simp [h, ih]

/-- C8: with a generated quiz, `submit_quiz` always returns normally
(never raises), and the scored total counts exactly the submitted
answers whose `question_id` matches a generated question — answers with
unmatched ids are excluded. -/
theorem submit_quiz_skips_unmatched :
    ∀ (o : OrchState) (q : Quiz) (rd : ReviewData) (answers : List AnswerIn),
      o.quiz = some q →
      subReturned (submitQuiz o rd answers).2 = true ∧
      subTotal (submitQuiz o rd answers).2 =
        some (answers.filter
          (fun a => (q.questions.find? (fun qq => qq.id = a.question_id)).isSome)).length := by
  intro o q rd answers hq
  refine ⟨by simp [submitQuiz, hq, subReturned], ?_⟩
  simp [submitQuiz, hq, subTotal, buildQaPairs_length]

/-- Witness for C8: one matched and one unmatched answer yield a scored
total of exactly 1. -/
theorem submit_quiz_skips_unmatched_witness :
    subReturned (submitQuiz demoQuizO demoReview
      (demoAnswers ++ demoUnmatched)).2 = true ∧
    subTotal (submitQuiz demoQuizO demoReview
      (demoAnswers ++ demoUnmatched)).2 = some 1 := by
  have h := submit_quiz_skips_unmatched demoQuizO demoQuiz
    demoReview (demoAnswers ++ demoUnmatched) rfl
  exact ⟨h.1, by rw [h.2]; rfl⟩

/-! ## C5 — teacher transitions at the question threshold, provided the
quiz-generation reply passes validation

The threshold logic of `_process_teacher` is as claimed, but the
transition is not unconditional at the threshold: `_generate_quiz` runs
*before* `transition_to(Phase.QUIZ)`, and a quiz-generation reply whose
difficulty or source falls outside the pydantic `Literal` sets raises
`ValidationError` there, leaving the session in TEACHER. -/

/-- Whether a quiz-generation reply passes the pydantic validation of
every constructed `QuizQuestion`. -/
def quizGenValid (gd : QuizGenData) : Bool :=
  gd.questions.all fun q =>
    validDifficulty q.difficulty && validSource (q.source.getD "generated")

/-- Whether a fallible computation returned normally. -/
def exceptOk {ε α : Type} : Except ε α → Bool
  | .ok _ => true
  | .error _ => false

/-- Source `buildQuestions` succeeds exactly when every question of the
reply passes the `Literal` validation. -/
theorem buildQuestions_isOk (l : List QRaw) (i : Nat) :
    exceptOk (buildQuestions l i) =
      l.all (fun q => validDifficulty q.difficulty &&
        validSource (q.source.getD "generated")) := by
  induction l generalizing i with
  | nil => rfl
  | cons q rest ih =>
    simp only [buildQuestions, List.all_cons]
    split_ifs with h1 h2
    · simp [exceptOk, h1]
    · rw [Bool.not_eq_false] at h1
      simp [exceptOk, h1, h2]
    · rw [Bool.not_eq_false] at h1 h2
      rw [← ih (i + 1)]
      cases hr : buildQuestions rest (i + 1) <;> simp [exceptOk, h1, h2, hr]

/-- A teacher-phase orchestrator whose agent has already asked 4
questions. -/
def demoTeacherO : OrchState :=
  { session_id := "sess"
    state := { session_id := "sess"
               phase := .teacher
               plan := some { student_level := "medium", teaching_focus := "details" }
               teacher_questions_asked := 4 }
    teacher := some
      { session_id := "sess"
        plan := { student_level := "medium", teaching_focus := "details" }
        already_asked := []
        conversation_history := []
        questions_asked := ["medium", "medium", "easy", "medium"]
        correct_answers := 2
        total_answers := 3
        current_difficulty := "medium" } }

/-- A quiz question with a difficulty outside
`Literal["easy", "medium", "hard"]`. -/
def demoBadQRaw : QRaw :=
  { question := "Why are drones pushed out?"
    difficulty := "banana"
    correct_answer := "Food is scarce."
    explanation := "Winter resources."
    topic := "details" }

/-- A quiz-generation reply the program rejects. -/
def demoBadQuizGen : QuizGenData :=
  { time_limit_seconds := some 300, questions := [demoBadQRaw] }

/-- The sample oracle with the invalid quiz-generation reply. -/
def demoBadOracle : StepOracle := { demoOracle with quizGen := demoBadQuizGen }

/-- C5 counterexample: on the call where `teacher_questions_asked`
reaches the threshold 5, a quiz-generation reply with an out-of-set
difficulty raises pydantic `ValidationError` inside `_generate_quiz` —
before `transition_to(Phase.QUIZ)` runs — so the count has reached the
threshold yet the session does not transition and stays in TEACHER,
refuting the claim as stated. -/
theorem teacher_threshold_blocked_by_invalid_reply :
    (processMessage demoTeacherO demoBadOracle "ans").1.state.teacher_questions_asked = 5 ∧
    (processMessage demoTeacherO demoBadOracle "ans").2 =
      .error "ValidationError: difficulty must be easy, medium or hard" ∧
    pmTransitioned (processMessage demoTeacherO demoBadOracle "ans").2 = none ∧
    (processMessage demoTeacherO demoBadOracle "ans").1.state.phase = Phase.teacher := by
  exact ⟨rfl, rfl, rfl, rfl⟩

/-- C5 (amended): in the TEACHER phase (agent constructed, plan
present), `process_message` copies the agent question count into
`teacher_questions_asked`; it never transitions on a call where the
count is below the threshold `TEACHER_QUESTIONS_BEFORE_QUIZ = 5`; when
the quiz-generation reply passes the pydantic validation it transitions
to QUIZ exactly when the count has reached the threshold; and when the
count has reached the threshold but the reply fails validation the call
raises `ValidationError` and the phase stays TEACHER. -/
theorem teacher_transition_at_threshold :
    ∀ (o : OrchState) (g : StepOracle) (t : TeacherState) (p : EvaluationPlan)
      (m : String),
      o.state.phase = Phase.teacher → o.teacher = some t → o.state.plan = some p →
      TEACHER_QUESTIONS_BEFORE_QUIZ = 5 ∧
      (processMessage o g m).1.state.teacher_questions_asked =
        (t.process_message g.tMsg m).2.questions_asked ∧
      ((processMessage o g m).1.state.teacher_questions_asked < 5 →
        pmTransitioned (processMessage o g m).2 = some false ∧
        (processMessage o g m).1.state.phase = Phase.teacher) ∧
      (quizGenValid g.quizGen = true →
        ((pmTransitioned (processMessage o g m).2 = some true ↔
          5 ≤ (processMessage o g m).1.state.teacher_questions_asked) ∧
         (5 ≤ (processMessage o g m).1.state.teacher_questions_asked →
          pmTransitioned (processMessage o g m).2 = some true ∧
          (processMessage o g m).1.state.phase = Phase.quiz))) ∧
      (5 ≤ (processMessage o g m).1.state.teacher_questions_asked →
        quizGenValid g.quizGen = false →
        pmTransitioned (processMessage o g m).2 = none ∧
        (processMessage o g m).1.state.phase = Phase.teacher) := by
  intro o g t p m hphase ht hp
  obtain ⟨sid, st, ev, tch, qz, qi⟩ := o
  obtain ⟨ssid, ph, ec, pl, tc, tqa, tcor, cd, qc, qr, rc⟩ := st
  simp only at hphase ht hp
  subst hphase ht hp
  have hok := buildQuestions_isOk (g.quizGen).questions 0
  cases hbq : buildQuestions (g.quizGen).questions 0 with
  | error e =>
    rw [hbq] at hok
    have hvf : quizGenValid g.quizGen = false := by
      rw [quizGenValid, ← hok]
      rfl
    refine ⟨rfl, ?_, ?_, ?_, ?_⟩ <;>
      simp only [processMessage, processTeacher, getTeacherAgent,
        SessionState.add_message, SessionState.transition_to, generateQuizOp,
        generateQuiz, hbq, TEACHER_QUESTIONS_BEFORE_QUIZ] <;>
      split_ifs with h5 <;>
      simp_all [pmTransitioned]
  | ok qs =>
    rw [hbq] at hok
    have hvt : quizGenValid g.quizGen = true := by
      rw [quizGenValid, ← hok]
      rfl
    refine ⟨rfl, ?_, ?_, ?_, ?_⟩ <;>
      simp only [processMessage, processTeacher, getTeacherAgent,
        SessionState.add_message, SessionState.transition_to, generateQuizOp,
        generateQuiz, hbq, TEACHER_QUESTIONS_BEFORE_QUIZ] <;>
      split_ifs with h5 <;>
      simp_all [pmTransitioned]

/-- Witness for C5: with 4 questions already asked, a reply that asks
the 5th, and a valid quiz-generation reply, the call transitions to
QUIZ with count exactly 5. -/
theorem teacher_transition_at_threshold_witness :
    quizGenValid demoOracle.quizGen = true ∧
    (processMessage demoTeacherO demoOracle "ans").1.state.teacher_questions_asked = 5 ∧
    pmTransitioned (processMessage demoTeacherO demoOracle "ans").2 = some true ∧
    (processMessage demoTeacherO demoOracle "ans").1.state.phase = Phase.quiz := by
  have h := teacher_transition_at_threshold demoTeacherO demoOracle
    { session_id := "sess"
      plan := { student_level := "medium", teaching_focus := "details" }
      already_asked := []
      conversation_history := []
      questions_asked := ["medium", "medium", "easy", "medium"]
      correct_answers := 2
      total_answers := 3
      current_difficulty := "medium" }
    { student_level := "medium", teaching_focus := "details" } "ans" rfl rfl rfl
  have hcount : (processMessage demoTeacherO demoOracle "ans").1.state.teacher_questions_asked = 5 := by
    rw [h.2.1]; rfl
  exact ⟨rfl, hcount, ((h.2.2.2.1 rfl).2 (by rw [hcount])).1,
    ((h.2.2.2.1 rfl).2 (by rw [hcount])).2⟩

/-! ## C1 — phases only ever move forward; non-forward skips are
rejected without touching state -/

/-- Source `get_intro` never changes the phase (it only appends an assistant
turn and may lazily create agents or the quiz). -/
theorem getIntro_phase (o : OrchState) (g : StepOracle) :
    ((getIntro o g).1).state.phase = o.state.phase := by
  obtain ⟨sid, st, ev, tch, qz, qi⟩ := o
  obtain ⟨ssid, ph, ec, pl, tc, tqa, tcor, cd, qc, qr, rc⟩ := st
  cases ph
  case evaluator =>
    cases ev <;> simp [getIntro, ensureEvaluator, SessionState.add_message]
  case teacher =>
    cases tch
    · cases pl <;>
        simp [getIntro, getTeacherAgent, TeacherState.get_intro_message,
          SessionState.add_message]
    · simp [getIntro, getTeacherAgent, TeacherState.get_intro_message,
        SessionState.add_message]
  case quiz =>
    cases qz
    · cases pl
      · simp [getIntro, generateQuizOp]
      · cases hbq : buildQuestions (g.quizGen).questions 0 with
        | error e => simp [getIntro, generateQuizOp, generateQuiz, hbq]
        | ok qs =>
          cases qs <;>
            simp [getIntro, generateQuizOp, generateQuiz, hbq, buildQuizIntro,
              SessionState.add_message]
    · rename_i q
      cases hqs : q.questions <;>
        simp [getIntro, buildQuizIntro, hqs, SessionState.add_message]
  case review =>
    simp [getIntro, SessionState.add_message]

/-- Source `_process_teacher` either leaves the phase unchanged or moves it to
QUIZ. -/
theorem processTeacher_phase (o : OrchState) (g : StepOracle) (m : String) :
    ((processTeacher o g m).1).state.phase = o.state.phase ∨
    ((processTeacher o g m).1).state.phase = Phase.quiz := by
  obtain ⟨sid, st, ev, tch, qz, qi⟩ := o
  obtain ⟨ssid, ph, ec, pl, tc, tqa, tcor, cd, qc, qr, rc⟩ := st
  cases hbq : buildQuestions (g.quizGen).questions 0 <;>
    cases tch <;>
    cases pl <;>
    simp [processTeacher, getTeacherAgent, SessionState.add_message,
      SessionState.transition_to, generateQuizOp, generateQuiz, hbq] <;>
    split_ifs <;> simp

/-- Source `plan_data["student_level"]` on a dumped `StudentPlan` returns the
stored level. -/
theorem dump_student_level (p : StudentPlan) :
    dictGetStr p.dump "student_level" = .ok p.student_level := rfl

/-- Source `plan_data["teaching_focus"]` on a dumped `StudentPlan` always
raises `KeyError`: the model has no such field. -/
theorem dump_no_teaching_focus (p : StudentPlan) :
    dictGetStr p.dump "teaching_focus" = .error "KeyError: teaching_focus" := rfl

/-- Source `_process_evaluator` either leaves the phase unchanged or moves it
to TEACHER. -/
theorem processEvaluator_phase (o : OrchState) (g : StepOracle) (m : String) :
    ((processEvaluator o g m).1).state.phase = o.state.phase ∨
    ((processEvaluator o g m).1).state.phase = Phase.teacher := by
  obtain ⟨sid, st, ev, tch, qz, qi⟩ := o
  obtain ⟨ssid, ph, ec, pl, tc, tqa, tcor, cd, qc, qr, rc⟩ := st
  cases ev <;>
    simp [processEvaluator, ensureEvaluator, EvalState.process_message,
      EvalState.init, SessionState.add_message, dump_student_level,
      dump_no_teaching_focus] <;>
    split_ifs <;>
    simp [dump_student_level, dump_no_teaching_focus]

/-- Source `submit_quiz` either leaves the phase unchanged (no active quiz) or
moves it to REVIEW. -/
theorem submitQuiz_phase (o : OrchState) (rd : ReviewData) (answers : List AnswerIn) :
    ((submitQuiz o rd answers).1).state.phase = o.state.phase ∨
    ((submitQuiz o rd answers).1).state.phase = Phase.review := by
  obtain ⟨sid, st, ev, tch, qz, qi⟩ := o
  cases qz <;>
    simp [submitQuiz, SessionState.set_quiz_result, SessionState.transition_to]

/-- C1: across every operation of the orchestrator (`get_intro`,
`process_message`, `submit_quiz`, `skip_to_phase`), the session phase
index never decreases along `PHASE_ORDER`; and a `skip_to_phase` whose
target is not strictly later than the current phase returns the
structured failure `{"success": False, "error": ...}` and leaves the
orchestrator state exactly unchanged. -/
theorem phase_monotone_and_skip_guard :
    (∀ (o : OrchState) (g : StepOracle) (op : Op),
      phaseIdx o.state.phase ≤ phaseIdx ((stepState o g op).state.phase)) ∧
    (∀ (o : OrchState) (g : StepOracle) (target : Phase),
      phaseIdx target ≤ phaseIdx o.state.phase →
      skipToPhase o g target =
        (o, .ok (SkipResult.failure ("Cannot go back to " ++ target.value)))) := by
  constructor
  · intro o g op
    cases op with
    | introOp =>
      show phaseIdx o.state.phase ≤ phaseIdx ((getIntro o g).1).state.phase
      rw [getIntro_phase]
    | messageOp m =>
      show phaseIdx o.state.phase ≤ phaseIdx ((processMessage o g m).1).state.phase
      cases hph : o.state.phase
      case evaluator =>
        exact Nat.zero_le _
      case teacher =>
        have hd : processMessage o g m = processTeacher o g m := by
          unfold processMessage
          rw [hph]
        rw [hd]
        rcases processTeacher_phase o g m with h | h
        · rw [h, hph]
        · rw [h]
          exact Nat.le_succ 1
      case quiz =>
        have hd : processMessage o g m = processQuiz o := by
          unfold processMessage
          rw [hph]
        rw [hd]
        simp [processQuiz, hph]
      case review =>
        have hd : processMessage o g m = processReview o m := by
          unfold processMessage
          rw [hph]
        rw [hd]
        simp [processReview, hph]
    | submitOp a =>
      show phaseIdx o.state.phase ≤ phaseIdx ((submitQuiz o g.review a).1).state.phase
      rcases submitQuiz_phase o g.review a with h | h <;> rw [h]
      exact phaseIdx_le_three _
    | skipOp t =>
      show phaseIdx o.state.phase ≤ phaseIdx ((skipToPhase o g t).1).state.phase
      by_cases hle : phaseIdx t ≤ phaseIdx o.state.phase
      · unfold skipToPhase
        rw [if_pos hle]
      · unfold skipToPhase
        rw [if_neg hle]
        have h1 : ∀ pr : OrchState × Except String IntroResult,
            (match pr with
              | (o2, .error e) => (o2, (.error e : Except String SkipResult))
              | (o2, .ok ir) => (o2, .ok (.success ir.response t.value))).1 = pr.1 := by
          intro pr
          rcases pr with ⟨o2, r⟩
          cases r <;> rfl
        rw [h1]
        rw [getIntro_phase]
        simp only [SessionState.transition_to]
        omega
  · intro o g target h
    unfold skipToPhase
    rw [if_pos h]

/-- Witness for C1: skipping back to EVALUATOR from a TEACHER-phase
session is rejected with the structured failure and the state is
unchanged. -/
theorem phase_monotone_and_skip_guard_witness :
    skipToPhase demoTeacherO demoOracle Phase.evaluator =
      (demoTeacherO, .ok (SkipResult.failure "Cannot go back to evaluator")) := by
  exact phase_monotone_and_skip_guard.2 demoTeacherO demoOracle Phase.evaluator (by decide)

end EdAccelerator
